import Mathlib

/-!
Shallow embedding of `src/triangle.cpp` (repository eigemx/gl): a minimal
OpenGL program that opens an 800x600 window, compiles a vertex/fragment
shader pair, uploads one triangle (9 floats, 3 indices) to the GPU, and
renders it with an indexed draw call each frame until the window-close flag
is set (platform close affordance or Escape key).

The program is a linear sequence of GLFW/OpenGL driver calls wrapped in one
event loop, so we model it as a pure function from an environment (the
outcomes the drivers report: window creation, GLAD loading, shader compile
and link status, and a finite stream of per-frame inputs) to the emitted
trace of driver calls paired with the process exit code.  Float literals of
the source are represented by the rationals they denote, machine `unsigned
int` handles by `Nat`.  The loop may fail to terminate (the close flag is
never set); we model that by exhausting the finite input stream, in which
case the exit code is `none`.
-/

namespace Gl

/-! ### Constants from the GLFW / OpenGL headers used by `triangle.cpp` -/

def GLFW_CONTEXT_VERSION_MAJOR : Nat := 0x00022002

def GLFW_CONTEXT_VERSION_MINOR : Nat := 0x00022003

def GLFW_OPENGL_PROFILE : Nat := 0x00022008

def GLFW_OPENGL_CORE_PROFILE : Nat := 0x00032001

def GLFW_KEY_ESCAPE : Nat := 256

def GL_VERTEX_SHADER : Nat := 0x8B31

def GL_FRAGMENT_SHADER : Nat := 0x8B30

def GL_COMPILE_STATUS : Nat := 0x8B81

def GL_LINK_STATUS : Nat := 0x8B82

def GL_ARRAY_BUFFER : Nat := 0x8892

def GL_ELEMENT_ARRAY_BUFFER : Nat := 0x8893

def GL_STATIC_DRAW : Nat := 0x88E4

def GL_FLOAT : Nat := 0x1406

def GL_UNSIGNED_INT : Nat := 0x1405

def GL_TRIANGLES : Nat := 0x0004

def GL_COLOR_BUFFER_BIT : Nat := 0x4000

def WINDOW_WIDTH : Int := 800

def WINDOW_HEIGHT : Int := 600

/-- Payload of a `glBufferData` call: the vertex upload carries floats
(modelled as the rationals the float literals denote), the index upload
carries unsigned integers. -/
inductive BufData where
  | floats (xs : List Rat)
  | uints (xs : List Nat)
deriving DecidableEq

/-- One observable call into the logging, window-system (GLFW) or GPU-driver
(OpenGL) layer, with the arguments the source passes.  Handle-returning
calls record nothing; the handles the driver hands back are modelled by the
fixed distinct naturals below (the program never compares handles). -/
inductive Call where
  | logInfo (msg : String)
  | logError (msg : String)
  | glfwInitCall
  | glfwWindowHint (target value : Nat)
  | glfwCreateWindow (width height : Int) (title : String)
  | glfwTerminateCall
  | glfwMakeContextCurrent
  | glfwSetFramebufferSizeCallback
  | gladLoadGLLoader
  | glViewport (x y width height : Int)
  | glCreateShader (shaderType : Nat)
  | glShaderSource (shader : Nat)
  | glCompileShader (shader : Nat)
  | glGetShaderiv (shader pname : Nat)
  | glGetShaderInfoLog (shader : Nat)
  | glCreateProgram
  | glAttachShader (program shader : Nat)
  | glLinkProgram (program : Nat)
  | glGetProgramiv (program pname : Nat)
  | glGetProgramInfoLog (program : Nat)
  | glDeleteShader (shader : Nat)
  | glGenVertexArrays (n : Nat)
  | glGenBuffers (n : Nat)
  | glBindVertexArray (array : Nat)
  | glBindBuffer (target buffer : Nat)
  | glBufferData (target : Nat) (size : Nat) (data : BufData) (usage : Nat)
  | glVertexAttribPointer (index size ty : Nat) (normalized : Bool) (stride offset : Nat)
  | glEnableVertexAttribArray (index : Nat)
  | glfwWindowShouldClose
  | glfwGetKey (key : Nat)
  | glfwSetWindowShouldClose (value : Bool)
  | glClearColor (r g b a : Rat)
  | glClear (mask : Nat)
  | glUseProgram (program : Nat)
  | glDrawElements (mode count ty offset : Nat)
  | glfwSwapBuffers
  | glfwPollEvents
  | glDeleteVertexArrays (n array : Nat)
  | glDeleteBuffers (n buffer : Nat)
  | glDeleteProgram (program : Nat)
deriving DecidableEq

/-! ### Handles returned by the driver (fixed distinct values) -/

def vertex_shader : Nat := 1

def fragment_shader : Nat := 2

def shader_program : Nat := 3

def VAO : Nat := 4

def VBO : Nat := 5

def EBO : Nat := 6

/-- An event the platform delivers during `glfwPollEvents`: a framebuffer
resize (invokes the registered resize callback) or the platform close
affordance (the window system sets the close flag of the window internally,
without any call by the program). -/
inductive PollEvent where
  | resize (width height : Int)
  | closeRequest
deriving DecidableEq

/-- Input the environment supplies to one iteration of the render loop:
whether `glfwGetKey(window, GLFW_KEY_ESCAPE)` reports `GLFW_PRESS`, and the
events drained by the `glfwPollEvents` call at the end of the iteration. -/
structure FrameInput where
  escapePressed : Bool
  events : List PollEvent
deriving DecidableEq

/-- Embedding of `framebuffer_resize_callback` (triangle.cpp:259-262): logs and sets the
viewport to the new framebuffer size.  The spdlog format string
`Resizing framebuffer to ..x..` is modelled by the formatted message. -/
def framebuffer_resize_callback (width height : Int) : List Call :=
  [Call.logInfo ("Resizing framebuffer to " ++ toString width ++ "x" ++ toString height),
   Call.glViewport 0 0 width height]

/-- Embedding of `escape_key_pressed_callback` (triangle.cpp:264-269): queries the Escape
key; when pressed, logs and sets the window-should-close flag.  Returns the
emitted calls and whether the flag was set by this call. -/
def escape_key_pressed_callback (escapePressed : Bool) : List Call × Bool :=
  if escapePressed then
    ([Call.glfwGetKey GLFW_KEY_ESCAPE,
      Call.logInfo "Escape key pressed",
      Call.glfwSetWindowShouldClose true], true)
  else
    ([Call.glfwGetKey GLFW_KEY_ESCAPE], false)

/-- Processing of one platform event during `glfwPollEvents`: a resize event
invokes the registered `framebuffer_resize_callback`; the platform close
affordance sets the close flag of the window internally (no program call). -/
def processEvent (shouldClose : Bool) : PollEvent → List Call × Bool
  | PollEvent.resize w h => (framebuffer_resize_callback w h, shouldClose)
  | PollEvent.closeRequest => ([], true)

/-- Processing of all events drained by one `glfwPollEvents` call. -/
def processEvents (shouldClose : Bool) : List PollEvent → List Call × Bool
  | [] => ([], shouldClose)
  | e :: es =>
    let r := processEvent shouldClose e
    let rest := processEvents r.2 es
    (r.1 ++ rest.1, rest.2)

/-- Body of one render-loop iteration (triangle.cpp:216-247), entered after
the loop head observed the close flag unset: escape check, clear to the
fixed background color, bind program and vertex array, indexed draw of 3
unsigned-int indices as triangles, unbind, swap buffers, poll events.
Returns the emitted calls and the close flag after the iteration. -/
def frameBody (shouldClose : Bool) (inp : FrameInput) : List Call × Bool :=
  let esc := escape_key_pressed_callback inp.escapePressed
  let ev := processEvents (shouldClose || esc.2) inp.events
  (esc.1 ++
   [Call.glClearColor (11/100) (11/100) (11/100) 1,
    Call.glClear GL_COLOR_BUFFER_BIT,
    Call.glUseProgram shader_program,
    Call.glBindVertexArray VAO,
    Call.glDrawElements GL_TRIANGLES 3 GL_UNSIGNED_INT 0,
    Call.glBindVertexArray 0,
    Call.glfwSwapBuffers,
    Call.glfwPollEvents] ++ ev.1,
   ev.2)

/-- Outcome of the render loop: `closed` when the loop head observed the
close flag set; `starved` when the modelled finite input stream ran out
with the flag still unset (the real loop would keep running). -/
inductive LoopResult where
  | closed
  | starved
deriving DecidableEq

/-- The render loop (triangle.cpp:215-248).  Each pass through the loop head
queries `glfwWindowShouldClose`; if the flag is set the loop exits,
otherwise one iteration body runs on the next frame input. -/
def renderLoop (shouldClose : Bool) : List FrameInput → List Call × LoopResult
  | [] =>
    ([Call.glfwWindowShouldClose],
     if shouldClose then LoopResult.closed else LoopResult.starved)
  | inp :: rest =>
    if shouldClose then
      ([Call.glfwWindowShouldClose], LoopResult.closed)
    else
      let fr := frameBody false inp
      let cont := renderLoop fr.2 rest
      (Call.glfwWindowShouldClose :: (fr.1 ++ cont.1), cont.2)

/-- Environment: what the platform and driver report to the program, and the
stream of per-frame inputs. -/
structure Env where
  windowCreated : Bool
  gladOk : Bool
  vertexCompileOk : Bool
  fragmentCompileOk : Bool
  linkOk : Bool
  vertexInfoLog : String
  fragmentInfoLog : String
  programInfoLog : String
  frames : List FrameInput

/-- Calls of `main` up to and including `glfwCreateWindow`
(triangle.cpp:31-46). -/
def initCalls : List Call :=
  [Call.logInfo "Initializing GLFW",
   Call.glfwInitCall,
   Call.glfwWindowHint GLFW_CONTEXT_VERSION_MAJOR 3,
   Call.glfwWindowHint GLFW_CONTEXT_VERSION_MINOR 3,
   Call.glfwWindowHint GLFW_OPENGL_PROFILE GLFW_OPENGL_CORE_PROFILE,
   Call.glfwCreateWindow WINDOW_WIDTH WINDOW_HEIGHT "gl"]

/-- Shader compilation and linking section (triangle.cpp:73-126): compile
both shaders, link the program, log the driver diagnostic on any failure,
and delete the two shader objects. -/
def shaderSetupCalls (env : Env) : List Call :=
  [Call.glCreateShader GL_VERTEX_SHADER,
   Call.logInfo "Compiling vertex shader",
   Call.glShaderSource vertex_shader,
   Call.glCompileShader vertex_shader,
   Call.glGetShaderiv vertex_shader GL_COMPILE_STATUS] ++
  (if env.vertexCompileOk then []
   else [Call.glGetShaderInfoLog vertex_shader,
         Call.logError ("Vertex shader compilation failed: " ++ env.vertexInfoLog)]) ++
  [Call.glCreateShader GL_FRAGMENT_SHADER,
   Call.glShaderSource fragment_shader,
   Call.glCompileShader fragment_shader,
   Call.glGetShaderiv fragment_shader GL_COMPILE_STATUS] ++
  (if env.fragmentCompileOk then []
   else [Call.glGetShaderInfoLog fragment_shader,
         Call.logError ("Fragment shader compilation failed: " ++ env.fragmentInfoLog)]) ++
  [Call.glCreateProgram,
   Call.glAttachShader shader_program vertex_shader,
   Call.glAttachShader shader_program fragment_shader,
   Call.glLinkProgram shader_program,
   Call.glGetProgramiv shader_program GL_LINK_STATUS] ++
  (if env.linkOk then []
   else [Call.glGetProgramInfoLog shader_program,
         Call.logError ("Shader program compilation failed: " ++ env.programInfoLog)]) ++
  [Call.glDeleteShader vertex_shader,
   Call.glDeleteShader fragment_shader]

/-- Vertex positions of the triangle (triangle.cpp:132-136): 9 floats, i.e.
3 vertices, each an exactly representable float literal. -/
def vertices : List Rat :=
  [-(1/2), -(1/2), 0, 1/2, -(1/2), 0, 0, 1/2, 0]

/-- Element indices of the triangle (triangle.cpp:138-140). -/
def indices : List Nat := [0, 1, 2]

/-- Buffer-object setup (triangle.cpp:148-209): generate VAO/VBO/EBO, bind,
upload `sizeof(vertices) = 36` bytes of vertex data and
`sizeof(indices) = 12` bytes of index data, and describe the vertex
layout. -/
def bufferSetupCalls : List Call :=
  [Call.glGenVertexArrays 1,
   Call.glGenBuffers 1,
   Call.glGenBuffers 1,
   Call.glBindVertexArray VAO,
   Call.logInfo "Copying triangle vertex data to vertix buffer",
   Call.glBindBuffer GL_ARRAY_BUFFER VBO,
   Call.glBufferData GL_ARRAY_BUFFER 36 (BufData.floats vertices) GL_STATIC_DRAW,
   Call.logInfo "Copying triangle element indices to element buffer",
   Call.glBindBuffer GL_ELEMENT_ARRAY_BUFFER EBO,
   Call.glBufferData GL_ELEMENT_ARRAY_BUFFER 12 (BufData.uints indices) GL_STATIC_DRAW,
   Call.glVertexAttribPointer 0 3 GL_FLOAT false 12 0,
   Call.glEnableVertexAttribArray 0]

/-- Teardown (triangle.cpp:250-255): delete the four GPU objects, then
destroy the window system. -/
def teardownCalls : List Call :=
  [Call.glDeleteVertexArrays 1 VAO,
   Call.glDeleteBuffers 1 VBO,
   Call.glDeleteBuffers 1 EBO,
   Call.glDeleteProgram shader_program,
   Call.glfwTerminateCall]

/-- The render loop followed by teardown and `return 0`; when the input
stream starves the loop never exits, so no teardown runs and there is no
exit code. -/
def loopAndTeardown (frames : List FrameInput) : List Call × Option Int :=
  let lp := renderLoop false frames
  match lp.2 with
  | LoopResult.closed => (lp.1 ++ teardownCalls, some 0)
  | LoopResult.starved => (lp.1, none)

/-- Calls between window creation and the GLAD check
(triangle.cpp:58-62). -/
def contextCalls : List Call :=
  [Call.glfwMakeContextCurrent,
   Call.glfwSetFramebufferSizeCallback,
   Call.gladLoadGLLoader]

/-- Embedding of `main` (triangle.cpp:29-257): the full program.  Returns the trace of
driver calls and the exit code (`none` when the loop never exits within the
modelled input stream). -/
def main (env : Env) : List Call × Option Int :=
  if env.windowCreated = false then
    (initCalls ++
     [Call.logError "Failed to create a GLFW window. Exiting.",
      Call.glfwTerminateCall], some (-1))
  else if env.gladOk = false then
    (initCalls ++ contextCalls ++
     [Call.logError "Failed to initialize GLAD"], some (-1))
  else
    let lt := loopAndTeardown env.frames
    (initCalls ++ contextCalls ++
     [Call.glViewport 0 0 WINDOW_WIDTH WINDOW_HEIGHT] ++
     shaderSetupCalls env ++ bufferSetupCalls ++ lt.1, lt.2)

/-- A call that modifies GPU buffer contents (the only such call the driver
contract of this program exposes is `glBufferData`). -/
def bufferWrite : Call → Bool
  | Call.glBufferData _ _ _ _ => true
  | _ => false

/-- The calls a render-loop iteration (including callbacks run during event
polling) can emit. -/
def loopCall : Call → Bool
  | Call.glfwWindowShouldClose => true
  | Call.glfwGetKey _ => true
  | Call.logInfo _ => true
  | Call.glfwSetWindowShouldClose _ => true
  | Call.glClearColor _ _ _ _ => true
  | Call.glClear _ => true
  | Call.glUseProgram _ => true
  | Call.glBindVertexArray _ => true
  | Call.glDrawElements _ _ _ _ => true
  | Call.glfwSwapBuffers => true
  | Call.glfwPollEvents => true
  | Call.glViewport _ _ _ _ => true
  | _ => false

/-- The calls the shader compilation/linking section can emit. -/
def shaderCall : Call → Bool
  | Call.glCreateShader _ => true
  | Call.logInfo _ => true
  | Call.logError _ => true
  | Call.glShaderSource _ => true
  | Call.glCompileShader _ => true
  | Call.glGetShaderiv _ _ => true
  | Call.glGetShaderInfoLog _ => true
  | Call.glCreateProgram => true
  | Call.glAttachShader _ _ => true
  | Call.glLinkProgram _ => true
  | Call.glGetProgramiv _ _ => true
  | Call.glGetProgramInfoLog _ => true
  | Call.glDeleteShader _ => true
  | _ => false

/-- The calls event processing inside `glfwPollEvents` can emit (only the
resize callback runs, which logs and sets the viewport). -/
def pollCall : Call → Bool
  | Call.logInfo _ => true
  | Call.glViewport _ _ _ _ => true
  | _ => false

example : (frameBody false ⟨true, []⟩).2 = true := rfl

example : (renderLoop false [⟨true, []⟩]).2 = LoopResult.closed := rfl

example :
    (main ⟨false, true, true, true, true, "", "", "", []⟩).2 = some (-1) := rfl

example :
    (main ⟨true, true, true, true, true, "", "", "", [⟨true, []⟩]⟩).2 = some 0 := rfl

/-! ### Helper lemmas -/

lemma renderLoop_true (frames : List FrameInput) :
    renderLoop true frames = ([Call.glfwWindowShouldClose], LoopResult.closed) := by
  cases frames <;> rfl

lemma processEvent_true (e : PollEvent) : (processEvent true e).2 = true := by
  cases e <;> rfl

lemma processEvents_true (evs : List PollEvent) :
    (processEvents true evs).2 = true := by
  induction evs with
  | nil => rfl
  | cons e es ih =>
    simp only [processEvents]
    rw [processEvent_true]
    exact ih

lemma processEvents_calls (sc : Bool) (evs : List PollEvent) :
    ∀ c ∈ (processEvents sc evs).1, loopCall c = true := by
  induction evs generalizing sc with
  | nil => intro c hc; simp [processEvents] at hc
  | cons e es ih =>
    intro c hc
    simp only [processEvents, List.mem_append] at hc
    rcases hc with hc | hc
    · cases e with
      | resize w h =>
        simp [processEvent, framebuffer_resize_callback] at hc
        rcases hc with rfl | rfl <;> rfl
      | closeRequest => simp [processEvent] at hc
    · exact ih _ c hc

lemma escape_calls (b : Bool) :
    ∀ c ∈ (escape_key_pressed_callback b).1, loopCall c = true := by
  cases b with
  | false =>
    intro c hc
    simp [escape_key_pressed_callback] at hc
    subst hc; rfl
  | true =>
    intro c hc
    simp [escape_key_pressed_callback] at hc
    rcases hc with rfl | rfl | rfl <;> rfl

lemma frameBody_calls (sc : Bool) (inp : FrameInput) :
    ∀ c ∈ (frameBody sc inp).1, loopCall c = true := by
  intro c hc
  simp only [frameBody, List.mem_append, List.mem_cons, List.not_mem_nil,
    or_false] at hc
  rcases hc with (hc | hc) | hc
  · exact escape_calls _ c hc
  · rcases hc with rfl | rfl | rfl | rfl | rfl | rfl | rfl | rfl <;> rfl
  · exact processEvents_calls _ _ c hc

lemma renderLoop_calls (sc : Bool) (frames : List FrameInput) :
    ∀ c ∈ (renderLoop sc frames).1, loopCall c = true := by
  induction frames generalizing sc with
  | nil =>
    intro c hc
    simp [renderLoop] at hc
    subst hc; rfl
  | cons inp rest ih =>
    intro c hc
    cases sc with
    | true =>
      simp [renderLoop] at hc
      subst hc; rfl
    | false =>
      simp only [renderLoop, Bool.false_eq_true, if_false, List.mem_cons,
        List.mem_append] at hc
      rcases hc with rfl | hc | hc
      · rfl
      · exact frameBody_calls _ _ c hc
      · exact ih _ c hc

lemma renderLoop_count_zero (sc : Bool) (frames : List FrameInput) (c : Call)
    (h : loopCall c = false) : ((renderLoop sc frames).1).count c = 0 := by
  rw [List.count_eq_zero]
  intro hc
  have hl := renderLoop_calls sc frames c hc
  rw [hl] at h
  exact Bool.noConfusion h

lemma renderLoop_countP_zero (sc : Bool) (frames : List FrameInput)
    (p : Call → Bool) (hp : ∀ c, loopCall c = true → p c = false) :
    ((renderLoop sc frames).1).countP p = 0 := by
  rw [List.countP_eq_zero]
  intro c hc
  have hl := hp c (renderLoop_calls sc frames c hc)
  simp [hl]

lemma shaderSetupCalls_mem (env : Env) :
    ∀ c ∈ shaderSetupCalls env, shaderCall c = true := by
  intro c hc
  cases hv : env.vertexCompileOk <;> cases hf : env.fragmentCompileOk <;>
    cases hl : env.linkOk <;>
    simp [shaderSetupCalls, hv, hf, hl] at hc <;>
    casesm* _ ∨ _ <;> subst_vars <;> rfl

lemma shaderSetupCalls_count_zero (env : Env) (c : Call)
    (h : shaderCall c = false) : (shaderSetupCalls env).count c = 0 := by
  rw [List.count_eq_zero]
  intro hc
  have hs := shaderSetupCalls_mem env c hc
  rw [hs] at h
  exact Bool.noConfusion h

lemma shaderSetupCalls_countP_zero (env : Env) (p : Call → Bool)
    (hp : ∀ c, shaderCall c = true → p c = false) :
    (shaderSetupCalls env).countP p = 0 := by
  rw [List.countP_eq_zero]
  intro c hc
  have hs := hp c (shaderSetupCalls_mem env c hc)
  simp [hs]

lemma loopAndTeardown_closed (frames : List FrameInput)
    (hc : (renderLoop false frames).2 = LoopResult.closed) :
    loopAndTeardown frames = ((renderLoop false frames).1 ++ teardownCalls, some 0) := by
  simp only [loopAndTeardown]
  rw [hc]

lemma loopAndTeardown_starved (frames : List FrameInput)
    (hs : (renderLoop false frames).2 = LoopResult.starved) :
    loopAndTeardown frames = ((renderLoop false frames).1, none) := by
  simp only [loopAndTeardown]
  rw [hs]

lemma loopAndTeardown_count (frames : List FrameInput) (c : Call)
    (h : loopCall c = false) :
    ((loopAndTeardown frames).1).count c =
      if (renderLoop false frames).2 = LoopResult.closed then
        teardownCalls.count c
      else 0 := by
  cases hl : (renderLoop false frames).2 with
  | closed =>
    rw [loopAndTeardown_closed frames hl]
    simp [List.count_append, renderLoop_count_zero false frames c h]
  | starved =>
    rw [loopAndTeardown_starved frames hl]
    simp [renderLoop_count_zero false frames c h]

lemma loopAndTeardown_countP (frames : List FrameInput) (p : Call → Bool)
    (hp : ∀ c, loopCall c = true → p c = false) :
    ((loopAndTeardown frames).1).countP p =
      if (renderLoop false frames).2 = LoopResult.closed then
        teardownCalls.countP p
      else 0 := by
  cases hl : (renderLoop false frames).2 with
  | closed =>
    rw [loopAndTeardown_closed frames hl]
    simp [List.countP_append, renderLoop_countP_zero false frames p hp]
  | starved =>
    rw [loopAndTeardown_starved frames hl]
    simp [renderLoop_countP_zero false frames p hp]

lemma loopAndTeardown_mem (frames : List FrameInput) :
    ∀ c ∈ (loopAndTeardown frames).1, loopCall c = true ∨ c ∈ teardownCalls := by
  intro c hc
  cases hl : (renderLoop false frames).2 with
  | closed =>
    rw [loopAndTeardown_closed frames hl] at hc
    rcases List.mem_append.1 hc with hc | hc
    · exact Or.inl (renderLoop_calls _ _ c hc)
    · exact Or.inr hc
  | starved =>
    rw [loopAndTeardown_starved frames hl] at hc
    exact Or.inl (renderLoop_calls _ _ c hc)

lemma renderLoop_head (sc : Bool) (frames : List FrameInput) :
    Call.glfwWindowShouldClose ∈ (renderLoop sc frames).1 := by
  cases frames with
  | nil => simp [renderLoop]
  | cons inp rest => cases sc <;> simp [renderLoop]

lemma loopAndTeardown_head (frames : List FrameInput) :
    Call.glfwWindowShouldClose ∈ (loopAndTeardown frames).1 := by
  cases hl : (renderLoop false frames).2 with
  | closed =>
    rw [loopAndTeardown_closed frames hl]
    exact List.mem_append_left _ (renderLoop_head _ _)
  | starved =>
    rw [loopAndTeardown_starved frames hl]
    exact renderLoop_head _ _

lemma processEvents_calls_poll (sc : Bool) (evs : List PollEvent) :
    ∀ c ∈ (processEvents sc evs).1, pollCall c = true := by
  induction evs generalizing sc with
  | nil => intro c hc; simp [processEvents] at hc
  | cons e es ih =>
    intro c hc
    simp only [processEvents, List.mem_append] at hc
    rcases hc with hc | hc
    · cases e with
      | resize w h =>
        simp [processEvent, framebuffer_resize_callback] at hc
        rcases hc with rfl | rfl <;> rfl
      | closeRequest => simp [processEvent] at hc
    · exact ih _ c hc

lemma processEvents_count_setClose (sc : Bool) (evs : List PollEvent) (b : Bool) :
    ((processEvents sc evs).1).count (Call.glfwSetWindowShouldClose b) = 0 := by
  rw [List.count_eq_zero]
  intro hc
  exact Bool.noConfusion (processEvents_calls_poll sc evs _ hc)

lemma frameBody_fst (sc : Bool) (inp : FrameInput) :
    (frameBody sc inp).1 =
      (escape_key_pressed_callback inp.escapePressed).1 ++
      [Call.glClearColor (11/100) (11/100) (11/100) 1,
       Call.glClear GL_COLOR_BUFFER_BIT,
       Call.glUseProgram shader_program,
       Call.glBindVertexArray VAO,
       Call.glDrawElements GL_TRIANGLES 3 GL_UNSIGNED_INT 0,
       Call.glBindVertexArray 0,
       Call.glfwSwapBuffers,
       Call.glfwPollEvents] ++
      (processEvents (sc || (escape_key_pressed_callback inp.escapePressed).2)
        inp.events).1 := rfl

lemma shaderCall_not_bufferWrite (c : Call) (h : shaderCall c = true) :
    bufferWrite c = false := by
  cases c <;> simp_all [shaderCall, bufferWrite]

lemma loopCall_not_bufferWrite (c : Call) (h : loopCall c = true) :
    bufferWrite c = false := by
  cases c <;> simp_all [loopCall, bufferWrite]

lemma main_success (env : Env) (hw : env.windowCreated = true)
    (hg : env.gladOk = true) :
    main env =
      (initCalls ++ contextCalls ++
       [Call.glViewport 0 0 WINDOW_WIDTH WINDOW_HEIGHT] ++
       shaderSetupCalls env ++ bufferSetupCalls ++ (loopAndTeardown env.frames).1,
       (loopAndTeardown env.frames).2) := by
  simp [main, hw, hg]

/-! ### Claim theorems -/

/-- C1: While the close flag is unset at the loop head, the render-loop
iteration performs, in this order: (1) the Escape-key close check, (2) clear
of the color buffer to the fixed background color, (3) bind of the shader
program and the vertex array, (4) one indexed draw call of exactly 3
indices of unsigned-integer type interpreted as a triangle list, (5) unbind
of the vertex array, (6) the buffer swap, (7) the event poll (whose drained
events run the registered callbacks). -/
theorem render_loop_iteration_order (inp : FrameInput) (rest : List FrameInput) :
    renderLoop false (inp :: rest) =
      (Call.glfwWindowShouldClose ::
        (((escape_key_pressed_callback inp.escapePressed).1 ++
          [Call.glClearColor (11/100) (11/100) (11/100) 1,
           Call.glClear GL_COLOR_BUFFER_BIT,
           Call.glUseProgram shader_program,
           Call.glBindVertexArray VAO,
           Call.glDrawElements GL_TRIANGLES 3 GL_UNSIGNED_INT 0,
           Call.glBindVertexArray 0,
           Call.glfwSwapBuffers,
           Call.glfwPollEvents] ++
          (processEvents (escape_key_pressed_callback inp.escapePressed).2
            inp.events).1) ++
         (renderLoop (frameBody false inp).2 rest).1),
       (renderLoop (frameBody false inp).2 rest).2) := rfl

/-- C2: If window creation fails, the program logs an error, terminates the
window system, and exits with status -1; no later setup step (GLAD
loading), no render-loop iteration, and no teardown call is executed. -/
theorem window_creation_failure_exit (env : Env)
    (h : env.windowCreated = false) :
    main env =
      (initCalls ++
        [Call.logError "Failed to create a GLFW window. Exiting.",
         Call.glfwTerminateCall], some (-1)) ∧
    Call.gladLoadGLLoader ∉ (main env).1 ∧
    Call.glfwWindowShouldClose ∉ (main env).1 ∧
    Call.glDrawElements GL_TRIANGLES 3 GL_UNSIGNED_INT 0 ∉ (main env).1 ∧
    Call.glDeleteProgram shader_program ∉ (main env).1 := by
  have hm : main env =
      (initCalls ++
        [Call.logError "Failed to create a GLFW window. Exiting.",
         Call.glfwTerminateCall], some (-1)) := by
    simp [main, h]
  refine ⟨hm, ?_, ?_, ?_, ?_⟩ <;> rw [hm] <;> decide

theorem window_creation_failure_exit_witness :
    (main ⟨false, true, true, true, true, "", "", "", []⟩).2 = some (-1) := by
  have h := window_creation_failure_exit
    ⟨false, true, true, true, true, "", "", "", []⟩ rfl
  rw [h.1]

/-- C3: Shader-compile or link failure is soft: the driver diagnostic is
logged and execution continues regardless — given successful window
creation and GLAD loading, the trace is setup followed by the render loop
and teardown, where everything after the shader section depends only on the
frame inputs (not on the compile/link outcomes), the render loop is
reached, the exit code is untouched by those outcomes, and each failed step
logs its driver diagnostic string. -/
theorem shader_failure_soft_continue (env : Env)
    (hw : env.windowCreated = true) (hg : env.gladOk = true) :
    main env =
      (initCalls ++ contextCalls ++
       [Call.glViewport 0 0 WINDOW_WIDTH WINDOW_HEIGHT] ++
       shaderSetupCalls env ++ bufferSetupCalls ++ (loopAndTeardown env.frames).1,
       (loopAndTeardown env.frames).2) ∧
    Call.glfwWindowShouldClose ∈ (main env).1 ∧
    (env.vertexCompileOk = false →
      Call.logError ("Vertex shader compilation failed: " ++ env.vertexInfoLog)
        ∈ (main env).1) ∧
    (env.fragmentCompileOk = false →
      Call.logError ("Fragment shader compilation failed: " ++ env.fragmentInfoLog)
        ∈ (main env).1) ∧
    (env.linkOk = false →
      Call.logError ("Shader program compilation failed: " ++ env.programInfoLog)
        ∈ (main env).1) := by
  have hm := main_success env hw hg
  refine ⟨hm, ?_, ?_, ?_, ?_⟩
  · rw [hm]
    exact List.mem_append_right _ (loopAndTeardown_head env.frames)
  · intro hv
    rw [hm]
    exact List.mem_append_left _ (List.mem_append_left _
      (List.mem_append_right _ (by simp [shaderSetupCalls, hv])))
  · intro hf
    rw [hm]
    exact List.mem_append_left _ (List.mem_append_left _
      (List.mem_append_right _ (by simp [shaderSetupCalls, hf])))
  · intro hl
    rw [hm]
    exact List.mem_append_left _ (List.mem_append_left _
      (List.mem_append_right _ (by simp [shaderSetupCalls, hl])))

theorem shader_failure_soft_continue_witness :
    Call.glfwWindowShouldClose ∈
      (main ⟨true, true, false, true, false, "vlog", "flog", "plog", []⟩).1 ∧
    Call.logError ("Vertex shader compilation failed: " ++ "vlog") ∈
      (main ⟨true, true, false, true, false, "vlog", "flog", "plog", []⟩).1 ∧
    Call.logError ("Shader program compilation failed: " ++ "plog") ∈
      (main ⟨true, true, false, true, false, "vlog", "flog", "plog", []⟩).1 := by
  have h := shader_failure_soft_continue
    ⟨true, true, false, true, false, "vlog", "flog", "plog", []⟩ rfl rfl
  exact ⟨h.2.1, h.2.2.1 rfl, h.2.2.2.2 rfl⟩

/-- C4: Once the render loop exits via the close flag, teardown deletes the
vertex array object, the vertex buffer, the index buffer, and the shader
program exactly once each over the entire trace (no double delete, no
leak), the trace ends with those deletions followed by the window-system
terminate, and the exit status is 0. -/
theorem teardown_deletes_once_exit_zero (env : Env)
    (hw : env.windowCreated = true) (hg : env.gladOk = true)
    (hc : (renderLoop false env.frames).2 = LoopResult.closed) :
    (main env).2 = some 0 ∧
    ((main env).1).count (Call.glDeleteVertexArrays 1 VAO) = 1 ∧
    ((main env).1).count (Call.glDeleteBuffers 1 VBO) = 1 ∧
    ((main env).1).count (Call.glDeleteBuffers 1 EBO) = 1 ∧
    ((main env).1).count (Call.glDeleteProgram shader_program) = 1 ∧
    ∃ t, (main env).1 = t ++ teardownCalls := by
  have hm := main_success env hw hg
  have hlt := loopAndTeardown_closed env.frames hc
  refine ⟨?_, ?_, ?_, ?_, ?_, ?_⟩
  · rw [hm, hlt]
  · rw [hm, hlt]
    simp only [List.count_append]
    rw [shaderSetupCalls_count_zero env (Call.glDeleteVertexArrays 1 VAO) rfl,
        renderLoop_count_zero false env.frames (Call.glDeleteVertexArrays 1 VAO) rfl]
    decide
  · rw [hm, hlt]
    simp only [List.count_append]
    rw [shaderSetupCalls_count_zero env (Call.glDeleteBuffers 1 VBO) rfl,
        renderLoop_count_zero false env.frames (Call.glDeleteBuffers 1 VBO) rfl]
    decide
  · rw [hm, hlt]
    simp only [List.count_append]
    rw [shaderSetupCalls_count_zero env (Call.glDeleteBuffers 1 EBO) rfl,
        renderLoop_count_zero false env.frames (Call.glDeleteBuffers 1 EBO) rfl]
    decide
  · rw [hm, hlt]
    simp only [List.count_append]
    rw [shaderSetupCalls_count_zero env (Call.glDeleteProgram shader_program) rfl,
        renderLoop_count_zero false env.frames (Call.glDeleteProgram shader_program) rfl]
    decide
  · refine ⟨initCalls ++ contextCalls ++
      [Call.glViewport 0 0 WINDOW_WIDTH WINDOW_HEIGHT] ++
      shaderSetupCalls env ++ bufferSetupCalls ++
      (renderLoop false env.frames).1, ?_⟩
    rw [hm, hlt]
    simp [List.append_assoc]

theorem teardown_deletes_once_exit_zero_witness :
    (main ⟨true, true, true, true, true, "", "", "", [⟨true, []⟩]⟩).2 = some 0 ∧
    ((main ⟨true, true, true, true, true, "", "", "", [⟨true, []⟩]⟩).1).count
      (Call.glDeleteProgram shader_program) = 1 := by
  have h := teardown_deletes_once_exit_zero
    ⟨true, true, true, true, true, "", "", "", [⟨true, []⟩]⟩ rfl rfl rfl
  exact ⟨h.1, h.2.2.2.2.1⟩

/-- C5: A resize event with width W and height H invokes the resize
callback, which performs exactly one viewport update with parameters
(0, 0, W, H) (after a log line) and no buffer-modifying call, and event
processing of the resize leaves the close flag and buffer contents
untouched. -/
theorem resize_updates_viewport_only (width height : Int) (shouldClose : Bool) :
    framebuffer_resize_callback width height =
      [Call.logInfo ("Resizing framebuffer to " ++ toString width ++ "x" ++
         toString height),
       Call.glViewport 0 0 width height] ∧
    (framebuffer_resize_callback width height).count
      (Call.glViewport 0 0 width height) = 1 ∧
    (framebuffer_resize_callback width height).countP
      (fun c => bufferWrite c) = 0 ∧
    processEvent shouldClose (PollEvent.resize width height) =
      (framebuffer_resize_callback width height, shouldClose) := by
  refine ⟨rfl, ?_, ?_, rfl⟩
  · simp [framebuffer_resize_callback, List.count_cons]
  · simp [framebuffer_resize_callback, bufferWrite]

/-- C6: Once the close flag is set by any source during an iteration, the
loop terminates within one polling interval: that iteration is followed by
exactly one more `glfwWindowShouldClose` head check and no further frame
iteration, whatever further input arrives; and a loop head that observes
the flag already set exits immediately. -/
theorem close_flag_stops_loop (inp : FrameInput) (rest : List FrameInput)
    (h : (frameBody false inp).2 = true) :
    renderLoop false (inp :: rest) =
      (Call.glfwWindowShouldClose ::
        ((frameBody false inp).1 ++ [Call.glfwWindowShouldClose]),
       LoopResult.closed) ∧
    (∀ frames, renderLoop true frames =
      ([Call.glfwWindowShouldClose], LoopResult.closed)) := by
  constructor
  · rw [show renderLoop false (inp :: rest) =
        (Call.glfwWindowShouldClose ::
          ((frameBody false inp).1 ++ (renderLoop (frameBody false inp).2 rest).1),
         (renderLoop (frameBody false inp).2 rest).2) from rfl,
        h, renderLoop_true]
  · exact renderLoop_true

theorem close_flag_stops_loop_witness :
    renderLoop false [⟨true, []⟩] =
      (Call.glfwWindowShouldClose ::
        ((frameBody false ⟨true, []⟩).1 ++ [Call.glfwWindowShouldClose]),
       LoopResult.closed) :=
  (close_flag_stops_loop ⟨true, []⟩ [] rfl).1

/-- C7: In a frame in which Escape is observed pressed, the
close-flag-setting call is issued exactly once (and never in a frame where
it is not pressed), the program never issues a call resetting the flag to
unset, and the flag is monotone: a frame entered with the flag set ends
with it set. -/
theorem escape_sets_flag_once_monotone (shouldClose : Bool) (inp : FrameInput) :
    (((frameBody shouldClose inp).1).count (Call.glfwSetWindowShouldClose true) =
      if inp.escapePressed then 1 else 0) ∧
    ((frameBody shouldClose inp).1).count (Call.glfwSetWindowShouldClose false) = 0 ∧
    (shouldClose = true → (frameBody shouldClose inp).2 = true) := by
  refine ⟨?_, ?_, ?_⟩
  · rw [frameBody_fst]
    simp only [List.count_append, processEvents_count_setClose]
    cases hp : inp.escapePressed <;> decide
  · rw [frameBody_fst]
    simp only [List.count_append, processEvents_count_setClose]
    cases hp : inp.escapePressed <;> decide
  · intro hsc
    subst hsc
    exact processEvents_true inp.events

theorem escape_sets_flag_once_monotone_witness :
    (((frameBody true ⟨true, []⟩).1).count (Call.glfwSetWindowShouldClose true) = 1) ∧
    (frameBody true ⟨true, []⟩).2 = true := by
  have h := escape_sets_flag_once_monotone true ⟨true, []⟩
  refine ⟨?_, h.2.2 rfl⟩
  have h1 := h.1
  simpa using h1

/-- C8: The vertex-buffer upload transfers the complete ordered sequence of
9 floats ((-0.5,-0.5,0),(0.5,-0.5,0),(0,0.5,0)), i.e. all 36 bytes, and the
index-buffer upload the complete sequence (0,1,2); with setup successful
each upload appears exactly once in the whole trace, these two are the only
buffer-modifying calls anywhere, and neither the render loop nor teardown
contains a buffer-modifying call. -/
theorem buffer_uploads_once_immutable (env : Env)
    (hw : env.windowCreated = true) (hg : env.gladOk = true) :
    vertices = [-(1/2), -(1/2), 0, 1/2, -(1/2), 0, 0, 1/2, 0] ∧
    indices = [0, 1, 2] ∧
    ((main env).1).count
      (Call.glBufferData GL_ARRAY_BUFFER 36 (BufData.floats vertices)
        GL_STATIC_DRAW) = 1 ∧
    ((main env).1).count
      (Call.glBufferData GL_ELEMENT_ARRAY_BUFFER 12 (BufData.uints indices)
        GL_STATIC_DRAW) = 1 ∧
    ((main env).1).countP (fun c => bufferWrite c) = 2 ∧
    (∀ c ∈ (loopAndTeardown env.frames).1, bufferWrite c = false) := by
  have hm := main_success env hw hg
  refine ⟨rfl, rfl, ?_, ?_, ?_, ?_⟩
  · rw [hm]
    simp only [List.count_append]
    rw [shaderSetupCalls_count_zero env
          (Call.glBufferData GL_ARRAY_BUFFER 36 (BufData.floats vertices)
            GL_STATIC_DRAW) rfl,
        loopAndTeardown_count env.frames
          (Call.glBufferData GL_ARRAY_BUFFER 36 (BufData.floats vertices)
            GL_STATIC_DRAW) rfl]
    have ht : teardownCalls.count
        (Call.glBufferData GL_ARRAY_BUFFER 36 (BufData.floats vertices)
          GL_STATIC_DRAW) = 0 := by decide
    rw [ht, ite_self]
    simp [initCalls, contextCalls, bufferSetupCalls, List.count_cons,
      List.count_nil, GL_ARRAY_BUFFER, GL_ELEMENT_ARRAY_BUFFER, GL_STATIC_DRAW,
      GL_FLOAT, GLFW_CONTEXT_VERSION_MAJOR, GLFW_CONTEXT_VERSION_MINOR,
      GLFW_OPENGL_PROFILE, GLFW_OPENGL_CORE_PROFILE, WINDOW_WIDTH, WINDOW_HEIGHT,
      VAO, VBO, EBO]
  · rw [hm]
    simp only [List.count_append]
    rw [shaderSetupCalls_count_zero env
          (Call.glBufferData GL_ELEMENT_ARRAY_BUFFER 12 (BufData.uints indices)
            GL_STATIC_DRAW) rfl,
        loopAndTeardown_count env.frames
          (Call.glBufferData GL_ELEMENT_ARRAY_BUFFER 12 (BufData.uints indices)
            GL_STATIC_DRAW) rfl]
    have ht : teardownCalls.count
        (Call.glBufferData GL_ELEMENT_ARRAY_BUFFER 12 (BufData.uints indices)
          GL_STATIC_DRAW) = 0 := by decide
    rw [ht, ite_self]
    simp [initCalls, contextCalls, bufferSetupCalls, List.count_cons,
      List.count_nil, GL_ARRAY_BUFFER, GL_ELEMENT_ARRAY_BUFFER, GL_STATIC_DRAW,
      GL_FLOAT, GLFW_CONTEXT_VERSION_MAJOR, GLFW_CONTEXT_VERSION_MINOR,
      GLFW_OPENGL_PROFILE, GLFW_OPENGL_CORE_PROFILE, WINDOW_WIDTH, WINDOW_HEIGHT,
      VAO, VBO, EBO]
  · rw [hm]
    simp only [List.countP_append]
    rw [shaderSetupCalls_countP_zero env (fun c => bufferWrite c)
          shaderCall_not_bufferWrite,
        loopAndTeardown_countP env.frames (fun c => bufferWrite c)
          loopCall_not_bufferWrite]
    have ht : teardownCalls.countP (fun c => bufferWrite c) = 0 := by decide
    rw [ht, ite_self]
    decide
  · intro c hc
    rcases loopAndTeardown_mem env.frames c hc with h | h
    · exact loopCall_not_bufferWrite c h
    · simp [teardownCalls] at h
      rcases h with rfl | rfl | rfl | rfl | rfl <;> rfl

theorem buffer_uploads_once_immutable_witness :
    ((main ⟨true, true, true, true, true, "", "", "", []⟩).1).countP
      (fun c => bufferWrite c) = 2 := by
  have h := buffer_uploads_once_immutable
    ⟨true, true, true, true, true, "", "", "", []⟩ rfl rfl
  exact h.2.2.2.2.1

/-- C9: If GPU function loading (GLAD) fails after the window was created,
the program logs `Failed to initialize GLAD` and exits with -1 immediately:
the trace ends at that log line, and no teardown call runs — no GPU-object
deletion and no window destruction. -/
theorem glad_failure_exit_no_teardown (env : Env)
    (hw : env.windowCreated = true) (hg : env.gladOk = false) :
    main env =
      (initCalls ++ contextCalls ++ [Call.logError "Failed to initialize GLAD"],
       some (-1)) ∧
    Call.glfwTerminateCall ∉ (main env).1 ∧
    Call.glDeleteVertexArrays 1 VAO ∉ (main env).1 ∧
    Call.glDeleteBuffers 1 VBO ∉ (main env).1 ∧
    Call.glDeleteBuffers 1 EBO ∉ (main env).1 ∧
    Call.glDeleteProgram shader_program ∉ (main env).1 := by
  have hm : main env =
      (initCalls ++ contextCalls ++ [Call.logError "Failed to initialize GLAD"],
       some (-1)) := by
    simp [main, hw, hg]
  refine ⟨hm, ?_, ?_, ?_, ?_, ?_⟩ <;> rw [hm] <;> decide

theorem glad_failure_exit_no_teardown_witness :
    (main ⟨true, false, true, true, true, "", "", "", []⟩).2 = some (-1) := by
  have h := glad_failure_exit_no_teardown
    ⟨true, false, true, true, true, "", "", "", []⟩ rfl rfl
  rw [h.1]

/-- C10: On the GLAD-failure exit path the program does not call the
window-system terminate operation before returning -1 — the created window
and the initialized window library are left unreleased — unlike the
window-creation-failure path, whose trace does contain the terminate
call. -/
theorem glad_failure_skips_terminate (envA envB : Env)
    (ha1 : envA.windowCreated = true) (ha2 : envA.gladOk = false)
    (hb : envB.windowCreated = false) :
    Call.glfwTerminateCall ∉ (main envA).1 ∧
    (main envA).2 = some (-1) ∧
    Call.glfwTerminateCall ∈ (main envB).1 := by
  have hmA : main envA =
      (initCalls ++ contextCalls ++ [Call.logError "Failed to initialize GLAD"],
       some (-1)) := by
    simp [main, ha1, ha2]
  have hmB : main envB =
      (initCalls ++
        [Call.logError "Failed to create a GLFW window. Exiting.",
         Call.glfwTerminateCall], some (-1)) := by
    simp [main, hb]
  refine ⟨?_, ?_, ?_⟩
  · rw [hmA]; decide
  · rw [hmA]
  · rw [hmB]; decide

theorem glad_failure_skips_terminate_witness :
    Call.glfwTerminateCall ∉
      (main ⟨true, false, true, true, true, "", "", "", []⟩).1 ∧
    Call.glfwTerminateCall ∈
      (main ⟨false, true, true, true, true, "", "", "", []⟩).1 := by
  have h := glad_failure_skips_terminate
    ⟨true, false, true, true, true, "", "", "", []⟩
    ⟨false, true, true, true, true, "", "", "", []⟩ rfl rfl rfl
  exact ⟨h.1, h.2.2⟩

end Gl
